import Mathlib

/-!
# Status names: the Lua binding `luafwk/statusname.c`

`statusname.c` wraps the `swi_statusname` library, which converts between the
string and the numeric representation of status codes, as a Lua module with the
two functions `name2num` and `num2name`.

The development embeds

* the fragment of the Lua 5.1 C API the file uses (`luaL_checkstring`,
  `luaL_checkinteger`, `lua_pushinteger`, `lua_pushstring`, `lua_newtable`,
  `lua_pushcfunction`, `lua_setfield`), as functions on an explicit `lua_State`;
* the three functions of `statusname.c`, statement by statement;
* the `swi_statusname` library, which `statusname.c` only includes, as a
  parameter (`StatusLib`) and as a table-driven model.

Lua numbers are represented by their integer value: fractional doubles and the
textual form of numbers (`"%.14g"`, `strtod`) are floating-point matters and
enter only through the parameters of `LuaConf`.
-/

namespace Statusname

/-! ## C values -/

/-- The character that terminates a C string. -/
def NUL : Char := Char.ofNat 0

/-- A C string (`const char *`): the characters before the terminating NUL. -/
abbrev CString := { s : String // NUL ∉ s.data }

/-- A C `int` (32 bits, two's complement); `swi_status_t` is one. -/
abbrev CInt := { n : Int // -2147483648 ≤ n ∧ n < 2147483648 }

/-- The status code `0`. -/
def CInt.zero : CInt := ⟨0, by decide⟩

/-- Conversion of a `lua_Integer` to `int`, as in `int num = luaL_checkinteger(L, 1)`:
the value is reduced modulo `2^32` into the range of `int`. -/
def toCInt (d : Int) : CInt :=
  ⟨(d + 2147483648) % 4294967296 - 2147483648, by constructor <;> omega⟩

/-- The cast `lua_number2integer` of a host number to `lua_Integer`, a 64-bit
`ptrdiff_t`: exact inside the range; outside it the conversion instruction
gives the least `lua_Integer`, `-2^63`. -/
def lua_number2integer (d : Int) : Int :=
  if -9223372036854775808 ≤ d ∧ d < 9223372036854775808 then d
  else -9223372036854775808

/-- The bytes of a Lua string seen through a `const char *`: everything before
the first NUL (`svalue`, then `strlen`/`strcmp` on the C side). -/
def toCString (s : String) : CString :=
  ⟨String.mk (s.data.takeWhile (fun c => decide (c ≠ NUL))), by
    intro h
    have h2 := List.mem_takeWhile_imp h
    simp at h2⟩

/-! ## Lua values and the Lua state -/

/-- The C functions that can be stored in a Lua value. -/
inductive CFunction where
  | api_name2num
  | api_num2name
  | other (addr : Nat)
  deriving DecidableEq

/-- Lua 5.1 values; objects with identity are represented by a reference. -/
inductive LuaValue where
  | nil
  | boolean (b : Bool)
  | lightuserdata (p : Nat)
  | number (n : Int)
  | string (s : String)
  | table (ref : Nat)
  | cfunction (f : CFunction)
  | closure (ref : Nat)
  | userdata (ref : Nat)
  | thread (ref : Nat)
  deriving DecidableEq

/-- The part of a `lua_State` a C function sees: its stack frame (index 1 is
the first element, the top is the last) and the table objects, addressed by
reference; a table is the list of its string-keyed fields. -/
structure lua_State where
  stack : List LuaValue
  tables : List (List (String × LuaValue))
  deriving DecidableEq

/-- An error raised through `lua_error` (a `longjmp` out of the C function). -/
inductive LuaError where
  | bad_argument (narg : Nat) (expected : String)
  | index_non_table
  deriving DecidableEq

/-- Results of fallible calls are compared by case. -/
instance decEqExcept {ε α : Type} [DecidableEq ε] [DecidableEq α] :
    DecidableEq (Except ε α)
  | Except.ok a, Except.ok b =>
    if h : a = b then isTrue (by rw [h]) else isFalse (fun h2 => h (by injection h2))
  | Except.error a, Except.error b =>
    if h : a = b then isTrue (by rw [h]) else isFalse (fun h2 => h (by injection h2))
  | Except.ok _, Except.error _ => isFalse (fun h => by cases h)
  | Except.error _, Except.ok _ => isFalse (fun h => by cases h)

/-- Number formatting and parsing, which Lua delegates to the C library:
`lua_number2str` (`sprintf` with `"%.14g"`) and `luaO_str2d` (`strtod`). -/
structure LuaConf where
  lua_number2str : Int → CString
  luaO_str2d : CString → Option Int

/-- Slot of the stack an acceptable index designates (`index2adr`); `none`
stands for `luaO_nilobject`, the non-valid index. Pseudo-indices are not used
by `statusname.c`. -/
def index2adr (L : lua_State) (idx : Int) : Option Nat :=
  if 0 < idx then
    if idx.toNat ≤ L.stack.length then some (idx.toNat - 1) else none
  else if idx < 0 ∧ (-idx).toNat ≤ L.stack.length then
    some (L.stack.length - (-idx).toNat)
  else none

/-- Value at an index; a non-valid index reads as `nil` (type `LUA_TNONE`). -/
def index2value (L : lua_State) (idx : Int) : Option LuaValue :=
  match index2adr L idx with
  | some i => L.stack.get? i
  | none => none

/-- Push a value on the top of the stack (`api_incr_top`). -/
def push (L : lua_State) (v : LuaValue) : lua_State :=
  { L with stack := L.stack ++ [v] }

/-- The function `lua_tolstring(L, idx, NULL)`: a string is returned as it is; a number is
converted to a string IN PLACE (`luaV_tostring` overwrites the stack slot);
anything else gives `NULL`. -/
def lua_tolstring (conf : LuaConf) (L : lua_State) (idx : Int) :
    lua_State × Option CString :=
  match index2adr L idx with
  | none => (L, none)
  | some i =>
    match L.stack.get? i with
    | some (LuaValue.string s) => (L, some (toCString s))
    | some (LuaValue.number n) =>
      let s := conf.lua_number2str n
      ({ L with stack := L.stack.set i (LuaValue.string s.val) }, some s)
    | _ => (L, none)

/-- The function `luaL_checkstring(L, narg)`: `lua_tolstring`, and a type error
when that gives `NULL`. -/
def luaL_checkstring (conf : LuaConf) (L : lua_State) (narg : Nat) :
    Except LuaError (lua_State × CString) :=
  match lua_tolstring conf L narg with
  | (L1, some s) => Except.ok (L1, s)
  | (_, none) => Except.error (LuaError.bad_argument narg "string")

/-- The number a value converts to (`luaV_tonumber`): a number is itself,
a string is parsed through its C view, anything else does not convert. -/
def luaV_tonumber (conf : LuaConf) : Option LuaValue → Option Int
  | some (LuaValue.number n) => some n
  | some (LuaValue.string s) => conf.luaO_str2d (toCString s)
  | _ => none

/-- The function `lua_tointeger(L, idx)`: the converted number cast to
`lua_Integer`, `0` when there is none. The stack is not modified. -/
def lua_tointeger (conf : LuaConf) (L : lua_State) (idx : Int) : Int :=
  match luaV_tonumber conf (index2value L idx) with
  | some n => lua_number2integer n
  | none => 0

/-- The function `lua_isnumber(L, idx)`: whether the value is a number or a
string that converts to one. -/
def lua_isnumber (conf : LuaConf) (L : lua_State) (idx : Int) : Bool :=
  (luaV_tonumber conf (index2value L idx)).isSome

/-- The function `luaL_checkinteger(L, narg)` of Lua 5.1: `lua_tointeger`, and a
type error when the result is `0` and the value is no number. -/
def luaL_checkinteger (conf : LuaConf) (L : lua_State) (narg : Nat) :
    Except LuaError Int :=
  let d := lua_tointeger conf L narg
  if d = 0 ∧ lua_isnumber conf L narg = false then
    Except.error (LuaError.bad_argument narg "number")
  else Except.ok d

/-- The function `lua_pushinteger(L, n)`: pushes the number `n`. A C `int`
is represented exactly by a `lua_Number`. -/
def lua_pushinteger (L : lua_State) (n : Int) : lua_State :=
  push L (LuaValue.number n)

/-- The function `lua_pushstring(L, s)`: pushes a copy of the C string, and
`nil` when `s` is `NULL`. -/
def lua_pushstring (L : lua_State) (s : Option CString) : lua_State :=
  match s with
  | none => push L LuaValue.nil
  | some s => push L (LuaValue.string s.val)

/-- The function `lua_newtable(L)`: allocates an empty table and pushes it. -/
def lua_newtable (L : lua_State) : lua_State :=
  { stack := L.stack ++ [LuaValue.table L.tables.length],
    tables := L.tables ++ [[]] }

/-- The function `lua_pushcfunction(L, f)`: pushes the C function `f`. -/
def lua_pushcfunction (L : lua_State) (f : CFunction) : lua_State :=
  push L (LuaValue.cfunction f)

/-- Assignment `t[k] = v` on the fields of a table without metatable;
assigning `nil` removes the field. -/
def rawset (fields : List (String × LuaValue)) (k : String) (v : LuaValue) :
    List (String × LuaValue) :=
  fields.filter (fun e => decide (e.1 ≠ k)) ++
    (if v = LuaValue.nil then [] else [(k, v)])

/-- The function `lua_setfield(L, idx, k)`: does `t[k] = v` for the table `t` at `idx` and
the value `v` on the top, then pops the value. Tables here carry no metatable;
indexing a value that is not a table is an error. -/
def lua_setfield (L : lua_State) (idx : Int) (k : String) :
    Except LuaError lua_State :=
  match index2value L idx, L.stack.getLast? with
  | some (LuaValue.table r), some v =>
    match L.tables.get? r with
    | some fields =>
      Except.ok { stack := L.stack.dropLast,
                  tables := L.tables.set r (rawset fields k v) }
    | none => Except.error LuaError.index_non_table
  | _, _ => Except.error LuaError.index_non_table

/-! ## The `swi_statusname` library -/

/-- The two functions declared by `swi_statusname.h`. -/
structure StatusLib where
  swi_string2status : CString → CInt
  swi_status2string : CInt → Option CString

/-! ## `statusname.c` -/

/-- Converts a name into a numeric status, or `0` if unknown.
Warning: `0` also happens to be the status code corresponding to `"OK"`. -/
def api_name2num (lib : StatusLib) (conf : LuaConf) (L : lua_State) :
    Except LuaError (lua_State × Nat) :=
  match luaL_checkstring conf L 1 with
  | Except.error e => Except.error e
  | Except.ok (L1, name) =>
    Except.ok (lua_pushinteger L1 (lib.swi_string2status name).val, 1)

/-- Converts a numeric status into a name, or `nil` if not found. -/
def api_num2name (lib : StatusLib) (conf : LuaConf) (L : lua_State) :
    Except LuaError (lua_State × Nat) :=
  match luaL_checkinteger conf L 1 with
  | Except.error e => Except.error e
  | Except.ok d =>
    let num : CInt := toCInt d
    Except.ok (lua_pushstring L (lib.swi_status2string num), 1)

/-- Loads the library. -/
def luaopen_statusname (L : lua_State) : Except LuaError (lua_State × Nat) :=
  let L1 := lua_newtable L
  let L2 := lua_pushcfunction L1 CFunction.api_name2num
  match lua_setfield L2 (-2) "name2num" with
  | Except.error e => Except.error e
  | Except.ok L3 =>
    let L4 := lua_pushcfunction L3 CFunction.api_num2name
    match lua_setfield L4 (-2) "num2name" with
    | Except.error e => Except.error e
    | Except.ok L5 => Except.ok (L5, 1)

/-! ## The status table -/

/-- One row of the compiled-in status table: a name and its code. -/
structure StatusEntry where
  name : CString
  code : CInt
  deriving DecidableEq

/-- Modelled from the spec: `swi_string2status` is declared in
`swi_statusname.h`, which `statusname.c` includes; its body is missing. The name is
matched exactly against the rows of the table, the first match in table order
wins, and an unknown name gives `0` (the comment of `api_name2num`: "or `0` if
unknown"). -/
def swi_string2status (table : List StatusEntry) (name : CString) : CInt :=
  match table.find? (fun e => decide (e.name = name)) with
  | some e => e.code
  | none => CInt.zero

/-- Modelled from the spec: `swi_status2string` is declared in
`swi_statusname.h`, which `statusname.c` includes; its body is missing. The result is
the name of the first row carrying the code, `NULL` when no row carries it
(the comment of `api_num2name`: "or `nil` if not found"). -/
def swi_status2string (table : List StatusEntry) (num : CInt) : Option CString :=
  match table.find? (fun e => decide (e.code = num)) with
  | some e => some e.name
  | none => none

/-- The library over a given table. -/
def tableLib (table : List StatusEntry) : StatusLib :=
  { swi_string2status := swi_string2status table,
    swi_status2string := swi_status2string table }

/-! ## Calling the module functions from the host -/

/-- A call of a C function by the host (`luaD_precall`/`luaD_poscall`): the
function runs on a frame holding the arguments, and its results are the
topmost `n` values of the frame, `n` being the returned count. -/
def callC (f : lua_State → Except LuaError (lua_State × Nat))
    (tables : List (List (String × LuaValue))) (args : List LuaValue) :
    Except LuaError (List LuaValue) :=
  match f { stack := args, tables := tables } with
  | Except.error e => Except.error e
  | Except.ok (L1, n) => Except.ok (L1.stack.drop (L1.stack.length - n))

/-- Value of a non-empty sequence of decimal digits. -/
def parseDigits (cs : List Char) : Option Nat :=
  if cs ≠ [] ∧ cs.all Char.isDigit = true then
    some (cs.foldl (fun n c => 10 * n + (c.toNat - 48)) 0)
  else none

/-- Value of an optionally signed sequence of decimal digits. -/
def parseDecimal : List Char → Option Int
  | '-' :: ds => (parseDigits ds).map (fun n => -(n : Int))
  | ds => (parseDigits ds).map (fun n => (n : Int))

/-- A `LuaConf` for integers in plain decimal form. -/
def decimalConf : LuaConf :=
  { lua_number2str := fun n => toCString (toString n),
    luaO_str2d := fun s => parseDecimal s.val.data }

/-- A C string literal. -/
def cstr (s : String) : CString := toCString s

/-- A small table in the shape the spec describes. -/
def sampleTable : List StatusEntry :=
  [ { name := cstr "OK", code := CInt.zero },
    { name := cstr "TIMEOUT", code := toCInt 1 } ]

/-- A table with a duplicated name, which the data model tolerates. -/
def duplicateNameTable : List StatusEntry :=
  [ { name := cstr "BUSY", code := toCInt 1 },
    { name := cstr "BUSY", code := toCInt 2 } ]

/-- The Lua value that `lua_pushstring` leaves on the stack for a C string. -/
def pushedString : Option CString → LuaValue
  | none => LuaValue.nil
  | some s => LuaValue.string s.val

/-! ## Lemmas on the API fragment -/

theorem index2value_one (L : lua_State) : index2value L 1 = L.stack.head? := by
  cases L with
  | mk stack tables => cases stack <;> simp [index2value, index2adr]

theorem lua_pushstring_eq (L : lua_State) (s : Option CString) :
    lua_pushstring L s = push L (pushedString s) := by
  cases s <;> rfl

theorem drop_top_one (xs : List LuaValue) (v : LuaValue) :
    (xs ++ [v]).drop ((xs ++ [v]).length - 1) = [v] := by
  simp

theorem lua_number2integer_val (c : CInt) : lua_number2integer c.val = c.val := by
  have h := c.property
  simp only [lua_number2integer]
  rw [if_pos (by constructor <;> omega)]

theorem toCInt_val (c : CInt) : toCInt (lua_number2integer c.val) = c := by
  rw [lua_number2integer_val]
  apply Subtype.ext
  have h := c.property
  simp only [toCInt]
  omega

theorem toCString_val (s : CString) : toCString s.val = s := by
  apply Subtype.ext
  have h : s.val.data.takeWhile (fun c => decide (c ≠ NUL)) = s.val.data := by
    rw [List.takeWhile_eq_self_iff]
    intro c hc
    have hn : c ≠ NUL := fun hcn => s.property (hcn ▸ hc)
    simpa using hn
  simp only [toCString, h]

/-! ## Lemmas on the two lookups -/

theorem api_name2num_string (lib : StatusLib) (conf : LuaConf)
    (tables : List (List (String × LuaValue))) (s : String) (rest : List LuaValue) :
    api_name2num lib conf ⟨LuaValue.string s :: rest, tables⟩ =
      Except.ok (⟨LuaValue.string s :: rest ++
        [LuaValue.number (lib.swi_string2status (toCString s)).val], tables⟩, 1) := by
  simp [api_name2num, luaL_checkstring, lua_tolstring, index2adr, lua_pushinteger, push]

theorem api_name2num_number (lib : StatusLib) (conf : LuaConf)
    (tables : List (List (String × LuaValue))) (n : Int) (rest : List LuaValue) :
    api_name2num lib conf ⟨LuaValue.number n :: rest, tables⟩ =
      Except.ok (⟨LuaValue.string (conf.lua_number2str n).val :: rest ++
        [LuaValue.number (lib.swi_string2status (conf.lua_number2str n)).val], tables⟩, 1) := by
  simp [api_name2num, luaL_checkstring, lua_tolstring, index2adr, lua_pushinteger, push]

theorem api_name2num_other (lib : StatusLib) (conf : LuaConf) (L : lua_State)
    (hs : ∀ s, L.stack.head? ≠ some (LuaValue.string s))
    (hn : ∀ n, L.stack.head? ≠ some (LuaValue.number n)) :
    api_name2num lib conf L = Except.error (LuaError.bad_argument 1 "string") := by
  cases L with
  | mk stack tables =>
    cases stack with
    | nil => simp [api_name2num, luaL_checkstring, lua_tolstring, index2adr]
    | cons a rest =>
      cases a <;>
        simp_all [api_name2num, luaL_checkstring, lua_tolstring, index2adr]

theorem api_num2name_some (lib : StatusLib) (conf : LuaConf) (L : lua_State) (d : Int)
    (h : luaV_tonumber conf L.stack.head? = some d) :
    api_num2name lib conf L =
      Except.ok (push L (pushedString
        (lib.swi_status2string (toCInt (lua_number2integer d)))), 1) := by
  simp [api_num2name, luaL_checkinteger, lua_tointeger, lua_isnumber, index2value_one, h,
    lua_pushstring_eq]

theorem api_num2name_none (lib : StatusLib) (conf : LuaConf) (L : lua_State)
    (h : luaV_tonumber conf L.stack.head? = none) :
    api_num2name lib conf L = Except.error (LuaError.bad_argument 1 "number") := by
  simp [api_num2name, luaL_checkinteger, lua_tointeger, lua_isnumber, index2value_one, h]

theorem callC_name2num_string (lib : StatusLib) (conf : LuaConf)
    (tables : List (List (String × LuaValue))) (s : String) (rest : List LuaValue) :
    callC (api_name2num lib conf) tables (LuaValue.string s :: rest) =
      Except.ok [LuaValue.number (lib.swi_string2status (toCString s)).val] := by
  simp only [callC, api_name2num_string]
  rw [drop_top_one]

theorem callC_name2num_number (lib : StatusLib) (conf : LuaConf)
    (tables : List (List (String × LuaValue))) (n : Int) (rest : List LuaValue) :
    callC (api_name2num lib conf) tables (LuaValue.number n :: rest) =
      Except.ok [LuaValue.number (lib.swi_string2status (conf.lua_number2str n)).val] := by
  simp only [callC, api_name2num_number]
  rw [drop_top_one]

theorem callC_name2num_other (lib : StatusLib) (conf : LuaConf)
    (tables : List (List (String × LuaValue))) (args : List LuaValue)
    (hs : ∀ s, args.head? ≠ some (LuaValue.string s))
    (hn : ∀ n, args.head? ≠ some (LuaValue.number n)) :
    callC (api_name2num lib conf) tables args =
      Except.error (LuaError.bad_argument 1 "string") := by
  simp only [callC, api_name2num_other lib conf ⟨args, tables⟩ hs hn]

theorem callC_num2name_some (lib : StatusLib) (conf : LuaConf)
    (tables : List (List (String × LuaValue))) (args : List LuaValue) (d : Int)
    (h : luaV_tonumber conf args.head? = some d) :
    callC (api_num2name lib conf) tables args =
      Except.ok [pushedString (lib.swi_status2string (toCInt (lua_number2integer d)))] := by
  simp only [callC, api_num2name_some lib conf ⟨args, tables⟩ d h, push]
  rw [drop_top_one]

theorem callC_num2name_none (lib : StatusLib) (conf : LuaConf)
    (tables : List (List (String × LuaValue))) (args : List LuaValue)
    (h : luaV_tonumber conf args.head? = none) :
    callC (api_num2name lib conf) tables args =
      Except.error (LuaError.bad_argument 1 "number") := by
  simp only [callC, api_num2name_none lib conf ⟨args, tables⟩ h]

/-! ## Lemmas on the status table -/

theorem swi_string2status_unknown (table : List StatusEntry) (name : CString)
    (h : ∀ e ∈ table, e.name ≠ name) : swi_string2status table name = CInt.zero := by
  have hfind : table.find? (fun e => decide (e.name = name)) = none := by
    rw [List.find?_eq_none]
    intro e he
    simpa using h e he
  simp [swi_string2status, hfind]

theorem swi_status2string_unknown (table : List StatusEntry) (num : CInt)
    (h : ∀ e ∈ table, e.code ≠ num) : swi_status2string table num = none := by
  have hfind : table.find? (fun e => decide (e.code = num)) = none := by
    rw [List.find?_eq_none]
    intro e he
    simpa using h e he
  simp [swi_status2string, hfind]

/-! ## The lookups: results -/

/-- C1 fails as stated: over a table that registers `"OK"` with code `0`, the
empty name matches no row, and `api_name2num` returns for it the number `0`,
the very result it returns for `"OK"`. -/
theorem name2num_unknown_collides_with_OK :
    (∀ e ∈ sampleTable, e.name ≠ toCString "") ∧
    callC (api_name2num (tableLib sampleTable) decimalConf) [] [LuaValue.string ""] =
      Except.ok [LuaValue.number 0] ∧
    callC (api_name2num (tableLib sampleTable) decimalConf) [] [LuaValue.string "OK"] =
      Except.ok [LuaValue.number 0] := by
  decide

/-- C1, amended: for every name that matches no row of the table,
`api_name2num` returns normally with the single result `0`; that result differs
from every status code other than `0` (and coincides with code `0`). -/
theorem name2num_unknown_is_zero (table : List StatusEntry) (conf : LuaConf)
    (tables : List (List (String × LuaValue))) (s : String) (rest : List LuaValue)
    (h : ∀ e ∈ table, e.name ≠ toCString s) :
    callC (api_name2num (tableLib table) conf) tables (LuaValue.string s :: rest) =
      Except.ok [LuaValue.number 0] ∧
    ∀ c : CInt, c.val ≠ 0 →
      callC (api_name2num (tableLib table) conf) tables (LuaValue.string s :: rest) ≠
        Except.ok [LuaValue.number c.val] := by
  have h0 : callC (api_name2num (tableLib table) conf) tables (LuaValue.string s :: rest) =
      Except.ok [LuaValue.number 0] := by
    rw [callC_name2num_string]
    simp [tableLib, swi_string2status_unknown table (toCString s) h, CInt.zero]
  refine ⟨h0, ?_⟩
  intro c hc heq
  rw [h0] at heq
  injection heq with h1
  injection h1 with h2
  injection h2 with h3
  exact hc h3.symm

/-- An instance of the amended C1: the empty name over the sample table. -/
theorem name2num_unknown_is_zero_witness :
    (∀ e ∈ sampleTable, e.name ≠ toCString "") ∧
    callC (api_name2num (tableLib sampleTable) decimalConf) [] [LuaValue.string ""] =
      Except.ok [LuaValue.number 0] :=
  ⟨by decide,
   (name2num_unknown_is_zero sampleTable decimalConf [] "" [] (by decide)).1⟩

/-- C2: for every string `name`, `api_name2num` returns exactly one result, the
number whose value is `swi_string2status(name)`; over the status table, a name
that matches no row therefore gives the number `0`. -/
theorem api_name2num_returns_status (lib : StatusLib) (conf : LuaConf)
    (table : List StatusEntry) (tables : List (List (String × LuaValue)))
    (s : String) (rest : List LuaValue) :
    callC (api_name2num lib conf) tables (LuaValue.string s :: rest) =
      Except.ok [LuaValue.number (lib.swi_string2status (toCString s)).val] ∧
    ((∀ e ∈ table, e.name ≠ toCString s) →
      callC (api_name2num (tableLib table) conf) tables (LuaValue.string s :: rest) =
        Except.ok [LuaValue.number 0]) := by
  refine ⟨callC_name2num_string lib conf tables s rest, ?_⟩
  intro h
  rw [callC_name2num_string]
  simp [tableLib, swi_string2status_unknown table (toCString s) h, CInt.zero]

/-- An instance of C2: a known and an unknown name over the sample table. -/
theorem api_name2num_returns_status_witness :
    callC (api_name2num (tableLib sampleTable) decimalConf) [] [LuaValue.string "TIMEOUT"] =
      Except.ok [LuaValue.number 1] ∧
    (∀ e ∈ sampleTable, e.name ≠ toCString "NOPE") ∧
    callC (api_name2num (tableLib sampleTable) decimalConf) [] [LuaValue.string "NOPE"] =
      Except.ok [LuaValue.number 0] :=
  ⟨(api_name2num_returns_status (tableLib sampleTable) decimalConf sampleTable []
      "TIMEOUT" []).1.trans (by decide),
   by decide,
   (api_name2num_returns_status (tableLib sampleTable) decimalConf sampleTable []
      "NOPE" []).2 (by decide)⟩

/-- C3: for every C `int` `num`, `api_num2name` returns exactly one result: the
string `swi_status2string(num)` when the library returns a name, `nil` when it
returns `NULL`; and `nil` is no string, the empty one included. -/
theorem api_num2name_returns_name (lib : StatusLib) (conf : LuaConf)
    (tables : List (List (String × LuaValue))) (num : CInt) (rest : List LuaValue) :
    callC (api_num2name lib conf) tables (LuaValue.number num.val :: rest) =
      Except.ok [match lib.swi_status2string num with
                 | some name => LuaValue.string name.val
                 | none => LuaValue.nil] ∧
    ∀ name : String, LuaValue.string name ≠ LuaValue.nil := by
  constructor
  · rw [callC_num2name_some lib conf tables _ num.val (by simp [luaV_tonumber]), toCInt_val]
    cases lib.swi_status2string num <;> rfl
  · intro name h
    cases h

/-- C7: a lookup miss never raises. `api_name2num` raises exactly when its first
argument is neither a string nor a number, `api_num2name` exactly when its
first argument is neither a number nor a string that converts to one; whether
the library knows the key plays no part, and a call that does not raise
returns exactly one result. -/
theorem lookup_raises_only_on_bad_argument (lib : StatusLib) (conf : LuaConf)
    (tables : List (List (String × LuaValue))) (args : List LuaValue) :
    ((∃ e, callC (api_name2num lib conf) tables args = Except.error e) ↔
      ¬ ((∃ s, args.head? = some (LuaValue.string s)) ∨
         (∃ n, args.head? = some (LuaValue.number n)))) ∧
    ((∃ e, callC (api_num2name lib conf) tables args = Except.error e) ↔
      ¬ ((∃ n, args.head? = some (LuaValue.number n)) ∨
         (∃ s, args.head? = some (LuaValue.string s) ∧
            (conf.luaO_str2d (toCString s)).isSome = true))) ∧
    ((∃ e, callC (api_name2num lib conf) tables args = Except.error e) ∨
      (∃ v, callC (api_name2num lib conf) tables args = Except.ok [v])) ∧
    ((∃ e, callC (api_num2name lib conf) tables args = Except.error e) ∨
      (∃ v, callC (api_num2name lib conf) tables args = Except.ok [v])) := by
  have hname : (∃ s, args.head? = some (LuaValue.string s)) ∨
      (∃ n, args.head? = some (LuaValue.number n)) ∨
      ((∀ s, args.head? ≠ some (LuaValue.string s)) ∧
        (∀ n, args.head? ≠ some (LuaValue.number n))) := by
    cases args with
    | nil => simp
    | cons a rest => cases a <;> simp
  have hnum : (∃ d, luaV_tonumber conf args.head? = some d) ∨
      luaV_tonumber conf args.head? = none := by
    cases luaV_tonumber conf args.head? <;> simp
  have hconv : luaV_tonumber conf args.head? = none ↔
      ¬ ((∃ n, args.head? = some (LuaValue.number n)) ∨
         (∃ s, args.head? = some (LuaValue.string s) ∧
            (conf.luaO_str2d (toCString s)).isSome = true)) := by
    cases args with
    | nil => simp [luaV_tonumber]
    | cons a rest =>
      cases a <;> simp [luaV_tonumber]
  refine ⟨?_, ?_, ?_, ?_⟩
  · rcases hname with ⟨s, hs⟩ | ⟨n, hn⟩ | ⟨hs, hn⟩
    · cases args with
      | nil => simp at hs
      | cons a rest =>
        simp only [List.head?_cons, Option.some.injEq] at hs
        subst hs
        simp [callC_name2num_string]
    · cases args with
      | nil => simp at hn
      | cons a rest =>
        simp only [List.head?_cons, Option.some.injEq] at hn
        subst hn
        simp [callC_name2num_number]
    · rw [callC_name2num_other lib conf tables args hs hn]
      simp
      exact ⟨hs, hn⟩
  · rcases hnum with ⟨d, hd⟩ | hnone
    · rw [callC_num2name_some lib conf tables args d hd]
      rw [← hconv, hd]
      simp
    · rw [callC_num2name_none lib conf tables args hnone]
      rw [← hconv]
      simp [hnone]
  · rcases hname with ⟨s, hs⟩ | ⟨n, hn⟩ | ⟨hs, hn⟩
    · cases args with
      | nil => simp at hs
      | cons a rest =>
        simp only [List.head?_cons, Option.some.injEq] at hs
        subst hs
        exact Or.inr ⟨_, callC_name2num_string lib conf tables s rest⟩
    · cases args with
      | nil => simp at hn
      | cons a rest =>
        simp only [List.head?_cons, Option.some.injEq] at hn
        subst hn
        exact Or.inr ⟨_, callC_name2num_number lib conf tables n rest⟩
    · exact Or.inl ⟨_, callC_name2num_other lib conf tables args hs hn⟩
  · rcases hnum with ⟨d, hd⟩ | hnone
    · exact Or.inr ⟨_, callC_num2name_some lib conf tables args d hd⟩
    · exact Or.inl ⟨_, callC_num2name_none lib conf tables args hnone⟩

/-! ## The lookups: effect on the stack, determinism -/

/-- C9 fails as stated: called on the number `42`, `api_name2num` leaves the
string `"42"` in the argument slot (`luaL_checkstring` converts a number in
place), so the stack after the call is not the stack before it plus one
result. -/
theorem name2num_rewrites_number_argument :
    api_name2num (tableLib sampleTable) decimalConf
        ⟨[LuaValue.number 42, LuaValue.boolean true], []⟩ =
      Except.ok (⟨[LuaValue.string "42", LuaValue.boolean true, LuaValue.number 0], []⟩, 1) ∧
    ¬ (∀ (L L1 : lua_State) (k : Nat),
        api_name2num (tableLib sampleTable) decimalConf L = Except.ok (L1, k) →
        ∃ v, L1 = push L v) := by
  have heval : api_name2num (tableLib sampleTable) decimalConf
        ⟨[LuaValue.number 42, LuaValue.boolean true], []⟩ =
      Except.ok (⟨[LuaValue.string "42", LuaValue.boolean true, LuaValue.number 0], []⟩, 1) := by
    decide
  refine ⟨heval, ?_⟩
  intro hall
  obtain ⟨v, hv⟩ := hall _ _ _ heval
  simp [push] at hv

/-- C9, amended: a successful `api_num2name`, and a successful `api_name2num`
whose argument is not a number, change the state only by pushing one result:
every existing slot and every table is as before. A successful `api_name2num`
on a number pushes one result and replaces the argument slot by the number's
string form; the other slots and the tables are as before. -/
theorem lookup_frame (lib : StatusLib) (conf : LuaConf) (L L1 : lua_State) (k : Nat) :
    (api_num2name lib conf L = Except.ok (L1, k) → ∃ v, L1 = push L v) ∧
    (api_name2num lib conf L = Except.ok (L1, k) →
      (∀ n, L.stack.head? ≠ some (LuaValue.number n)) → ∃ v, L1 = push L v) ∧
    (api_name2num lib conf L = Except.ok (L1, k) →
      ∀ n rest, L.stack = LuaValue.number n :: rest →
        ∃ v, L1 = push ⟨LuaValue.string (conf.lua_number2str n).val :: rest, L.tables⟩ v) := by
  refine ⟨?_, ?_, ?_⟩
  · intro h
    cases hd : luaV_tonumber conf L.stack.head? with
    | none => rw [api_num2name_none lib conf L hd] at h; cases h
    | some d =>
      rw [api_num2name_some lib conf L d hd] at h
      injection h with h1
      injection h1 with h2 h3
      exact ⟨_, h2.symm⟩
  · intro h hnot
    cases L with
    | mk stack tables =>
      cases stack with
      | nil => rw [api_name2num_other lib conf _ (by simp) (by simp)] at h; cases h
      | cons a rest =>
        cases a with
        | string s =>
          rw [api_name2num_string] at h
          injection h with h1
          injection h1 with h2 h3
          exact ⟨_, by rw [← h2]; rfl⟩
        | number n => exact absurd rfl (hnot n)
        | _ => rw [api_name2num_other lib conf _ (by simp) (by simp)] at h; cases h
  · intro h n rest hstack
    cases L with
    | mk stack tables =>
      simp only at hstack
      subst hstack
      rw [api_name2num_number] at h
      injection h with h1
      injection h1 with h2 h3
      exact ⟨_, by rw [← h2]; rfl⟩

/-- Instances of the amended C9: a string argument of `api_name2num`, a number
argument of `api_num2name`, a number argument of `api_name2num`. -/
theorem lookup_frame_witness :
    (api_name2num (tableLib sampleTable) decimalConf
        ⟨[LuaValue.string "OK", LuaValue.nil], [[]]⟩ =
        Except.ok (⟨[LuaValue.string "OK", LuaValue.nil, LuaValue.number 0], [[]]⟩, 1) ∧
      ∃ v, (⟨[LuaValue.string "OK", LuaValue.nil, LuaValue.number 0], [[]]⟩ : lua_State) =
        push ⟨[LuaValue.string "OK", LuaValue.nil], [[]]⟩ v) ∧
    (api_num2name (tableLib sampleTable) decimalConf
        ⟨[LuaValue.number 1, LuaValue.nil], [[]]⟩ =
        Except.ok (⟨[LuaValue.number 1, LuaValue.nil, LuaValue.string "TIMEOUT"], [[]]⟩, 1) ∧
      ∃ v, (⟨[LuaValue.number 1, LuaValue.nil, LuaValue.string "TIMEOUT"], [[]]⟩ : lua_State) =
        push ⟨[LuaValue.number 1, LuaValue.nil], [[]]⟩ v) ∧
    (api_name2num (tableLib sampleTable) decimalConf
        ⟨[LuaValue.number 7, LuaValue.nil], [[]]⟩ =
        Except.ok (⟨[LuaValue.string "7", LuaValue.nil, LuaValue.number 0], [[]]⟩, 1) ∧
      ∃ v, (⟨[LuaValue.string "7", LuaValue.nil, LuaValue.number 0], [[]]⟩ : lua_State) =
        push ⟨[LuaValue.string (decimalConf.lua_number2str 7).val, LuaValue.nil], [[]]⟩ v) :=
  ⟨⟨by decide,
    (lookup_frame (tableLib sampleTable) decimalConf
      ⟨[LuaValue.string "OK", LuaValue.nil], [[]]⟩
      ⟨[LuaValue.string "OK", LuaValue.nil, LuaValue.number 0], [[]]⟩ 1).2.1
      (by decide) (by simp)⟩,
   ⟨by decide,
    (lookup_frame (tableLib sampleTable) decimalConf
      ⟨[LuaValue.number 1, LuaValue.nil], [[]]⟩
      ⟨[LuaValue.number 1, LuaValue.nil, LuaValue.string "TIMEOUT"], [[]]⟩ 1).1
      (by decide)⟩,
   ⟨by decide,
    (lookup_frame (tableLib sampleTable) decimalConf
      ⟨[LuaValue.number 7, LuaValue.nil], [[]]⟩
      ⟨[LuaValue.string "7", LuaValue.nil, LuaValue.number 0], [[]]⟩ 1).2.2
      (by decide) 7 [LuaValue.nil] rfl⟩⟩

/-- C10: the lookups are deterministic. Two calls of `api_name2num`, or of
`api_num2name`, whose first arguments are equal return equal results over the
same library, whatever else the two states hold. -/
theorem lookups_deterministic (lib : StatusLib) (conf : LuaConf)
    (tables1 tables2 : List (List (String × LuaValue))) (args1 args2 : List LuaValue)
    (h : args1.head? = args2.head?) :
    callC (api_name2num lib conf) tables1 args1 =
      callC (api_name2num lib conf) tables2 args2 ∧
    callC (api_num2name lib conf) tables1 args1 =
      callC (api_num2name lib conf) tables2 args2 := by
  constructor
  · cases args1 with
    | nil =>
      have h2 : args2 = [] := by
        cases args2 with
        | nil => rfl
        | cons b r => simp at h
      subst h2
      rw [callC_name2num_other lib conf tables1 [] (by simp) (by simp),
        callC_name2num_other lib conf tables2 [] (by simp) (by simp)]
    | cons a r1 =>
      cases args2 with
      | nil => simp at h
      | cons b r2 =>
        simp only [List.head?_cons, Option.some.injEq] at h
        subst h
        cases a with
        | string s => rw [callC_name2num_string, callC_name2num_string]
        | number n => rw [callC_name2num_number, callC_name2num_number]
        | _ =>
          rw [callC_name2num_other lib conf tables1 _ (by simp) (by simp),
            callC_name2num_other lib conf tables2 _ (by simp) (by simp)]
  · cases hd : luaV_tonumber conf args1.head? with
    | none =>
      rw [callC_num2name_none lib conf tables1 args1 hd,
        callC_num2name_none lib conf tables2 args2 (h ▸ hd)]
    | some d =>
      rw [callC_num2name_some lib conf tables1 args1 d hd,
        callC_num2name_some lib conf tables2 args2 d (h ▸ hd)]

/-- An instance of C10: equal first arguments, different
further stack slots and tables. -/
theorem lookups_deterministic_witness :
    [LuaValue.string "OK"].head? = [LuaValue.string "OK", LuaValue.nil].head? ∧
    callC (api_name2num (tableLib sampleTable) decimalConf) [] [LuaValue.string "OK"] =
      callC (api_name2num (tableLib sampleTable) decimalConf) [[]]
        [LuaValue.string "OK", LuaValue.nil] :=
  ⟨rfl, (lookups_deterministic (tableLib sampleTable) decimalConf [] [[]]
      [LuaValue.string "OK"] [LuaValue.string "OK", LuaValue.nil] rfl).1⟩

/-! ## Loading the module -/

theorem get?_length_append (xs : List LuaValue) (a v : LuaValue) :
    (xs ++ [a, v]).get? xs.length = some a := by
  rw [List.get?_eq_getElem?, List.getElem?_append_right (Nat.le_refl _)]
  simp

theorem setfield_top (stack : List LuaValue) (tables : List (List (String × LuaValue)))
    (fields : List (String × LuaValue)) (k : String) (v : LuaValue) :
    lua_setfield ⟨stack ++ [LuaValue.table tables.length, v], tables ++ [fields]⟩ (-2) k =
      Except.ok ⟨stack ++ [LuaValue.table tables.length], tables ++ [rawset fields k v]⟩ := by
  have hidx : index2value ⟨stack ++ [LuaValue.table tables.length, v], tables ++ [fields]⟩ (-2)
      = some (LuaValue.table tables.length) := by
    have hadr : index2adr ⟨stack ++ [LuaValue.table tables.length, v], tables ++ [fields]⟩ (-2)
        = some stack.length := by
      simp [index2adr]
    simp only [index2value, hadr]
    exact get?_length_append stack _ v
  have hlast : (stack ++ [LuaValue.table tables.length, v]).getLast? = some v := by
    simp
  have hdrop : (stack ++ [LuaValue.table tables.length, v]).dropLast =
      stack ++ [LuaValue.table tables.length] := by
    rw [List.dropLast_append_of_ne_nil _ (by simp)]
    rfl
  simp only [lua_setfield, hidx, hlast, hdrop]
  simp

/-- C8: `luaopen_statusname` returns exactly one value, a table that did not
exist before (its reference is past every table of the state), whose fields
are `name2num`, bound to `api_name2num`, and `num2name`, bound to
`api_num2name`, and nothing else; the stack below and the other tables are as
before. -/
theorem luaopen_statusname_exports (L : lua_State) :
    luaopen_statusname L = Except.ok
      (⟨L.stack ++ [LuaValue.table L.tables.length],
        L.tables ++ [[("name2num", LuaValue.cfunction CFunction.api_name2num),
                      ("num2name", LuaValue.cfunction CFunction.api_num2name)]]⟩, 1) ∧
    L.tables.get? L.tables.length = none ∧
    callC luaopen_statusname L.tables L.stack =
      Except.ok [LuaValue.table L.tables.length] := by
  have hopen : luaopen_statusname L = Except.ok
      (⟨L.stack ++ [LuaValue.table L.tables.length],
        L.tables ++ [[("name2num", LuaValue.cfunction CFunction.api_name2num),
                      ("num2name", LuaValue.cfunction CFunction.api_num2name)]]⟩, 1) := by
    simp only [luaopen_statusname, lua_newtable, lua_pushcfunction, push, List.append_assoc,
      List.singleton_append]
    rw [setfield_top]
    simp only [List.append_assoc, List.singleton_append]
    rw [setfield_top]
    simp [rawset]
  refine ⟨hopen, by simp, ?_⟩
  cases L with
  | mk stack tables =>
    simp only [callC, hopen]
    rw [drop_top_one]

/-! ## The lookups over the status table -/

theorem find?_code_of_mem (table : List StatusEntry) (e : StatusEntry) (he : e ∈ table) :
    ∃ e1, table.find? (fun x => decide (x.code = e.code)) = some e1 ∧
      e1 ∈ table ∧ e1.code = e.code := by
  cases h : table.find? (fun x => decide (x.code = e.code)) with
  | none =>
    rw [List.find?_eq_none] at h
    have := h e he
    simp at this
  | some e1 =>
    exact ⟨e1, rfl, List.mem_of_find?_eq_some h, by simpa using List.find?_some h⟩

theorem find?_name_of_mem (table : List StatusEntry) (e : StatusEntry) (he : e ∈ table) :
    ∃ e1, table.find? (fun x => decide (x.name = e.name)) = some e1 ∧
      e1 ∈ table ∧ e1.name = e.name := by
  cases h : table.find? (fun x => decide (x.name = e.name)) with
  | none =>
    rw [List.find?_eq_none] at h
    have := h e he
    simp at this
  | some e1 =>
    exact ⟨e1, rfl, List.mem_of_find?_eq_some h, by simpa using List.find?_some h⟩

/-- C4 fails on the code: `int num = luaL_checkinteger(L, 1)` reduces the host
integer `2^32` to `0`, so for every library `api_num2name` answers `2^32` as it
answers `0`. Over a table that registers only the codes `0` and `1`, no row
carries the code `2^32`, yet the call returns `"OK"`, while the unregistered
codes `-1` and `999999`, which are inside the range of `int`, give `nil`. -/
theorem num2name_wraps_host_integer :
    (∀ (lib : StatusLib) (conf : LuaConf) (tables : List (List (String × LuaValue))),
      callC (api_num2name lib conf) tables [LuaValue.number 4294967296] =
        callC (api_num2name lib conf) tables [LuaValue.number 0]) ∧
    (∀ e ∈ sampleTable, e.code.val ≠ 4294967296) ∧
    callC (api_num2name (tableLib sampleTable) decimalConf) [] [LuaValue.number 4294967296] =
      Except.ok [LuaValue.string "OK"] ∧
    callC (api_num2name (tableLib sampleTable) decimalConf) [] [LuaValue.number (-1)] =
      Except.ok [LuaValue.nil] ∧
    callC (api_num2name (tableLib sampleTable) decimalConf) [] [LuaValue.number 999999] =
      Except.ok [LuaValue.nil] := by
  refine ⟨?_, by decide, by decide, by decide, by decide⟩
  intro lib conf tables
  rw [callC_num2name_some lib conf tables _ 4294967296 (by simp [luaV_tonumber]),
    callC_num2name_some lib conf tables _ 0 (by simp [luaV_tonumber])]
  have hwrap : toCInt (lua_number2integer 4294967296) = toCInt (lua_number2integer 0) := by
    apply Subtype.ext
    simp [toCInt, lua_number2integer]
  rw [hwrap]

/-- For a host integer inside the range of `int`, an unregistered code does give `nil`. -/
theorem num2name_unregistered_in_range (table : List StatusEntry) (conf : LuaConf)
    (tables : List (List (String × LuaValue))) (num : CInt) (rest : List LuaValue)
    (h : ∀ e ∈ table, e.code ≠ num) :
    callC (api_num2name (tableLib table) conf) tables (LuaValue.number num.val :: rest) =
      Except.ok [LuaValue.nil] := by
  rw [callC_num2name_some (tableLib table) conf tables _ num.val (by simp [luaV_tonumber]),
    toCInt_val]
  simp [tableLib, swi_status2string_unknown table num h, pushedString]

/-- C5 fails as stated: over a table whose codes are unique and in which the
name `"BUSY"` is registered twice, the registered code `2` goes to `"BUSY"` and
`"BUSY"` goes back to `1`. -/
theorem roundtrip_code_fails_on_duplicate_name :
    (duplicateNameTable.map (fun e => e.code)).Nodup ∧
    (∃ e ∈ duplicateNameTable, e.code.val = 2) ∧
    callC (api_num2name (tableLib duplicateNameTable) decimalConf) [] [LuaValue.number 2] =
      Except.ok [LuaValue.string "BUSY"] ∧
    callC (api_name2num (tableLib duplicateNameTable) decimalConf) [] [LuaValue.string "BUSY"] =
      Except.ok [LuaValue.number 1] := by
  decide

/-- C5, amended: for every code `c` registered in the table, `num2name`
returns the canonical name of `c`, the name of the first row carrying `c`, and
`name2num` of that name returns the code of the first row carrying that name.
This is `c` again unless the canonical name is registered earlier in the table
(with another code, since no earlier row carries `c`); in that case it is the
earlier code and differs from `c`. -/
theorem roundtrip_code_name_code (table : List StatusEntry) (conf : LuaConf)
    (tables : List (List (String × LuaValue)))
    (e : StatusEntry) (he : e ∈ table) :
    ∃ (pre : List StatusEntry) (canon : StatusEntry) (post : List StatusEntry)
      (first : StatusEntry),
      table = pre ++ canon :: post ∧ canon.code = e.code ∧
      (∀ x ∈ pre, x.code ≠ e.code) ∧
      table.find? (fun x => decide (x.name = canon.name)) = some first ∧
      callC (api_num2name (tableLib table) conf) tables [LuaValue.number e.code.val] =
        Except.ok [LuaValue.string canon.name.val] ∧
      callC (api_name2num (tableLib table) conf) tables [LuaValue.string canon.name.val] =
        Except.ok [LuaValue.number first.code.val] ∧
      ((∀ x ∈ pre, x.name ≠ canon.name) → first.code = e.code) ∧
      ((∃ x ∈ pre, x.name = canon.name) → first ∈ pre ∧ first.code ≠ e.code) := by
  obtain ⟨canon, hfind1, hmem1, hcode1⟩ := find?_code_of_mem table e he
  obtain ⟨first, hfind2, hmem2, hname2⟩ := find?_name_of_mem table canon hmem1
  obtain ⟨_, pre, post, hsplit, hpre⟩ := List.find?_eq_some.mp hfind1
  have hprecode : ∀ x ∈ pre, x.code ≠ e.code := by
    intro x hx
    simpa using hpre x hx
  refine ⟨pre, canon, post, first, hsplit, hcode1, hprecode, hfind2, ?_, ?_, ?_, ?_⟩
  · rw [callC_num2name_some (tableLib table) conf tables _ e.code.val (by simp [luaV_tonumber]),
      toCInt_val]
    simp [tableLib, swi_status2string, hfind1, pushedString]
  · rw [callC_name2num_string, toCString_val]
    simp [tableLib, swi_string2status, hfind2]
  · intro hnone
    have hprenone : pre.find? (fun x => decide (x.name = canon.name)) = none := by
      rw [List.find?_eq_none]
      intro x hx
      simpa using hnone x hx
    rw [hsplit, List.find?_append, hprenone] at hfind2
    simp at hfind2
    rw [← hfind2]
    exact hcode1
  · rintro ⟨x, hx, hxname⟩
    cases hp : pre.find? (fun x => decide (x.name = canon.name)) with
    | none =>
      rw [List.find?_eq_none] at hp
      have := hp x hx
      simp [hxname] at this
    | some y =>
      rw [hsplit, List.find?_append, hp] at hfind2
      simp at hfind2
      have hy : y ∈ pre := List.mem_of_find?_eq_some hp
      rw [← hfind2]
      exact ⟨hy, hprecode y hy⟩

/-- Instances of the amended C5 over the table with the duplicated name: the
code `1`, which goes to `"BUSY"` and comes back, and the code `2`, whose
canonical name `"BUSY"` is registered earlier. -/
theorem roundtrip_code_name_code_witness :
    ((⟨cstr "BUSY", toCInt 1⟩ : StatusEntry) ∈ duplicateNameTable ∧
    ∃ (pre : List StatusEntry) (canon : StatusEntry) (post : List StatusEntry)
      (first : StatusEntry),
      duplicateNameTable = pre ++ canon :: post ∧ canon.code = toCInt 1 ∧
      (∀ x ∈ pre, x.code ≠ toCInt 1) ∧
      duplicateNameTable.find? (fun x => decide (x.name = canon.name)) = some first ∧
      callC (api_num2name (tableLib duplicateNameTable) decimalConf) []
          [LuaValue.number (toCInt 1).val] =
        Except.ok [LuaValue.string canon.name.val] ∧
      callC (api_name2num (tableLib duplicateNameTable) decimalConf) []
          [LuaValue.string canon.name.val] =
        Except.ok [LuaValue.number first.code.val] ∧
      ((∀ x ∈ pre, x.name ≠ canon.name) → first.code = toCInt 1) ∧
      ((∃ x ∈ pre, x.name = canon.name) → first ∈ pre ∧ first.code ≠ toCInt 1)) ∧
    ((⟨cstr "BUSY", toCInt 2⟩ : StatusEntry) ∈ duplicateNameTable ∧
    ∃ (pre : List StatusEntry) (canon : StatusEntry) (post : List StatusEntry)
      (first : StatusEntry),
      duplicateNameTable = pre ++ canon :: post ∧ canon.code = toCInt 2 ∧
      (∀ x ∈ pre, x.code ≠ toCInt 2) ∧
      duplicateNameTable.find? (fun x => decide (x.name = canon.name)) = some first ∧
      callC (api_num2name (tableLib duplicateNameTable) decimalConf) []
          [LuaValue.number (toCInt 2).val] =
        Except.ok [LuaValue.string canon.name.val] ∧
      callC (api_name2num (tableLib duplicateNameTable) decimalConf) []
          [LuaValue.string canon.name.val] =
        Except.ok [LuaValue.number first.code.val] ∧
      ((∀ x ∈ pre, x.name ≠ canon.name) → first.code = toCInt 2) ∧
      ((∃ x ∈ pre, x.name = canon.name) → first ∈ pre ∧ first.code ≠ toCInt 2)) :=
  ⟨⟨by decide,
    roundtrip_code_name_code duplicateNameTable decimalConf []
      ⟨cstr "BUSY", toCInt 1⟩ (by decide)⟩,
   ⟨by decide,
    roundtrip_code_name_code duplicateNameTable decimalConf []
      ⟨cstr "BUSY", toCInt 2⟩ (by decide)⟩⟩

/-- C6: over a table whose codes are unique, for every registered name `n`,
`name2num` returns the code of the first row named `n`, and `num2name` of that
code returns the canonical name of that first-registered code, which is `n`
itself, whether or not `n` is registered again further down. -/
theorem roundtrip_name_code_name (table : List StatusEntry) (conf : LuaConf)
    (tables : List (List (String × LuaValue)))
    (hcodes : (table.map (fun e => e.code)).Nodup)
    (e : StatusEntry) (he : e ∈ table) :
    ∃ first : StatusEntry,
      table.find? (fun x => decide (x.name = e.name)) = some first ∧
      callC (api_name2num (tableLib table) conf) tables [LuaValue.string e.name.val] =
        Except.ok [LuaValue.number first.code.val] ∧
      callC (api_num2name (tableLib table) conf) tables [LuaValue.number first.code.val] =
        Except.ok [pushedString (swi_status2string table first.code)] ∧
      swi_status2string table first.code = some e.name ∧
      callC (api_num2name (tableLib table) conf) tables [LuaValue.number first.code.val] =
        Except.ok [LuaValue.string e.name.val] := by
  obtain ⟨e1, hfind1, hmem1, hname1⟩ := find?_name_of_mem table e he
  obtain ⟨e2, hfind2, hmem2, hcode2⟩ := find?_code_of_mem table e1 hmem1
  have h21 : e2 = e1 := List.inj_on_of_nodup_map hcodes hmem2 hmem1 hcode2
  have hcanon : swi_status2string table e1.code = some e.name := by
    simp [swi_status2string, hfind2, h21, hname1]
  have hback : callC (api_num2name (tableLib table) conf) tables
      [LuaValue.number e1.code.val] =
        Except.ok [pushedString (swi_status2string table e1.code)] := by
    rw [callC_num2name_some (tableLib table) conf tables _ e1.code.val
      (by simp [luaV_tonumber]), toCInt_val]
    rfl
  refine ⟨e1, hfind1, ?_, hback, hcanon, ?_⟩
  · rw [callC_name2num_string, toCString_val]
    simp [tableLib, swi_string2status, hfind1]
  · rw [hback, hcanon]
    rfl

/-- An instance of C6: the duplicated name `"BUSY"`,
taken from its second row. -/
theorem roundtrip_name_code_name_witness :
    (duplicateNameTable.map (fun e => e.code)).Nodup ∧
    (⟨cstr "BUSY", toCInt 2⟩ : StatusEntry) ∈ duplicateNameTable ∧
    ∃ first : StatusEntry,
      duplicateNameTable.find? (fun x => decide (x.name = cstr "BUSY")) = some first ∧
      callC (api_name2num (tableLib duplicateNameTable) decimalConf) []
          [LuaValue.string (cstr "BUSY").val] =
        Except.ok [LuaValue.number first.code.val] ∧
      callC (api_num2name (tableLib duplicateNameTable) decimalConf) []
          [LuaValue.number first.code.val] =
        Except.ok [pushedString (swi_status2string duplicateNameTable first.code)] ∧
      swi_status2string duplicateNameTable first.code = some (cstr "BUSY") ∧
      callC (api_num2name (tableLib duplicateNameTable) decimalConf) []
          [LuaValue.number first.code.val] =
        Except.ok [LuaValue.string (cstr "BUSY").val] :=
  ⟨by decide, by decide,
   roundtrip_name_code_name duplicateNameTable decimalConf [] (by decide)
     ⟨cstr "BUSY", toCInt 2⟩ (by decide)⟩

end Statusname
